import Mathlib

/-!
Verification of the zahar-site server (src/server.js), a minimal Express
application with in-memory users, cookie sessions, and video uploads.

The embedding below models the in-memory "database" `users`
(username ↦ {password, role}), the express-session store
(session id ↦ {username, role}), the uploads directory as a list of stored
file names, and each HTTP handler of src/server.js as a pure function from
server state and request data to a new state and a JSON response.
-/

namespace Zahar

/-- A record of the in-memory `users` object: `{ password, role }`
(src/server.js line 34). Roles are the strings `"user"` and `"admin"`. -/
structure UserRec where
  password : String
  role : String
deriving DecidableEq, Repr

/-- The value stored in `req.session.user`: `{ username, role }`
(src/server.js lines 59 and 68). -/
structure SessionRec where
  username : String
  role : String
deriving DecidableEq, Repr

/-- The mutable server state: the `users` map, the express-session store
(keyed by an opaque session identifier, modelled as `Nat`), and the names of
the files written to the uploads directory. -/
@[ext]
structure ServerState where
  users : String → Option UserRec
  sessions : Nat → Option SessionRec
  files : List String

/-- A JSON response: HTTP status plus the body fields the handlers set
(`ok`, `error`, `file`, `name`, `uploads`). -/
structure Response where
  status : Nat
  ok : Bool
  error : Option String
  file : Option String
  name : Option String
  uploads : Option (List (String × String))
deriving DecidableEq, Repr

/-- `res.json({ ok: true })` with the default 200 status. -/
def okResp : Response := ⟨200, true, none, none, none, none⟩

/-- `res.status(st).json({ error: e })`. -/
def errResp (st : Nat) (e : String) : Response := ⟨st, false, some e, none, none, none⟩

/-- The startup state: the seeded `users['admin'] = { password: 'adminpass',
role: 'admin' }` (src/server.js line 114), no sessions, no uploads. -/
def initState : ServerState where
  users := fun u => if u = "admin" then some ⟨"adminpass", "admin"⟩ else none
  sessions := fun _ => none
  files := []

/-- `POST /api/signup` (src/server.js lines 54-61): reject with 400
`missing` when either field is falsy (the empty string), with 409 `exists`
when the username is already in `users`; otherwise insert the user with role
`"user"` and set `req.session.user`. -/
def signup (s : ServerState) (sid : Nat) (username password : String) :
    ServerState × Response :=
  if username = "" ∨ password = "" then (s, errResp 400 "missing")
  else
    match s.users username with
    | some _ => (s, errResp 409 "exists")
    | none =>
      ({ users := fun u => if u = username then some ⟨password, "user"⟩ else s.users u,
         sessions := fun i => if i = sid then some ⟨username, "user"⟩ else s.sessions i,
         files := s.files }, okResp)

/-- `POST /api/login` (src/server.js lines 64-70): 401 `invalid` when the
username is absent or the stored password differs from the supplied one;
otherwise bind `req.session.user` to the username and the stored role. -/
def login (s : ServerState) (sid : Nat) (username password : String) :
    ServerState × Response :=
  match s.users username with
  | none => (s, errResp 401 "invalid")
  | some u =>
    if u.password ≠ password then (s, errResp 401 "invalid")
    else
      ({ users := s.users,
         sessions := fun i => if i = sid then some ⟨username, u.role⟩ else s.sessions i,
         files := s.files }, okResp)

/-- `POST /api/logout` (src/server.js lines 72-74): destroy the session
unconditionally and answer `{ ok: true }`. -/
def logout (s : ServerState) (sid : Nat) : ServerState × Response :=
  ({ users := s.users,
     sessions := fun i => if i = sid then none else s.sessions i,
     files := s.files }, okResp)

/-- `authRequired` (src/server.js lines 76-79): pass when the session holds a
user, else 401 `unauthorized`. `none` means the middleware called `next()`. -/
def authRequired (s : ServerState) (sid : Nat) : Option Response :=
  match s.sessions sid with
  | some _ => none
  | none => some (errResp 401 "unauthorized")

/-- `adminRequired` (src/server.js lines 81-84): pass when the session holds
a user whose role is `"admin"`, else 403 `forbidden`. -/
def adminRequired (s : ServerState) (sid : Nat) : Option Response :=
  match s.sessions sid with
  | some u => if u.role = "admin" then none else some (errResp 403 "forbidden")
  | none => some (errResp 403 "forbidden")

/-- The character class `\s` of the JavaScript regex `/\s+/g`
(src/server.js line 44): ASCII whitespace, NBSP, the Unicode space
separators, line/paragraph separators and the BOM. -/
def isJsWs (c : Char) : Bool :=
  c = '\t' ∨ c = '\n' ∨ c.toNat = 11 ∨ c.toNat = 12 ∨ c = '\r' ∨ c = ' ' ∨
  c.toNat = 160 ∨ c.toNat = 0x1680 ∨
  (0x2000 ≤ c.toNat ∧ c.toNat ≤ 0x200A) ∨
  c.toNat = 0x2028 ∨ c.toNat = 0x2029 ∨ c.toNat = 0x202F ∨
  c.toNat = 0x205F ∨ c.toNat = 0x3000 ∨ c.toNat = 0xFEFF

/-- `str.replace(/\s+/g, '_')` over the character list: each maximal run of
whitespace becomes a single `'_'`. The flag records whether the previous
character was part of a whitespace run already replaced. -/
def collapseChars : Bool → List Char → List Char
  | _, [] => []
  | inWs, c :: cs =>
    if isJsWs c then
      if inWs then collapseChars true cs else '_' :: collapseChars true cs
    else c :: collapseChars false cs

/-- `file.originalname.replace(/\s+/g, '_')` (src/server.js line 44). -/
def collapseWs (s : String) : String := ⟨collapseChars false s.data⟩

/-- The character for a decimal digit `d < 10`. -/
def digitChar (d : Nat) : Char := Char.ofNat (48 + d)

/-- Decimal digits of `n`, most significant first, by structural recursion
on a fuel bound (`n` itself suffices, since `n / 10 < n` for `n > 0`). -/
def natCharsAux : Nat → Nat → List Char
  | 0, _ => []
  | _ + 1, 0 => []
  | fuel + 1, n + 1 =>
    natCharsAux fuel ((n + 1) / 10) ++ [digitChar ((n + 1) % 10)]

/-- The decimal string of a natural number as a character list, most
significant digit first — the JavaScript number-to-string coercion applied
to `Date.now()` in `Date.now() + '-' + ...` (src/server.js line 44). -/
def natChars (n : Nat) : List Char :=
  if n = 0 then ['0'] else natCharsAux n n

/-- The stored file name produced by the multer `filename` callback
(src/server.js lines 43-46): `Date.now() + '-' + originalname.replace(/\s+/g, '_')`. -/
def genStoredName (ts : Nat) (originalName : String) : String :=
  ⟨natChars ts⟩ ++ "-" ++ collapseWs originalName

/-- `path.basename`: the part of the path after the last `'/'`. -/
def basename (p : String) : String :=
  ⟨((p.data.reverse.takeWhile (fun c => c != '/')).reverse)⟩

/-- `limits.fileSize` of the multer configuration: `2 * 1024 * 1024 * 1024`
(src/server.js line 48). -/
def fileSizeLimit : Nat := 2 * 1024 * 1024 * 1024

/-- An uploaded multipart file: its byte length and its
`originalname`, together with the value of `Date.now()` when multer picks
the stored name. -/
structure UploadFile where
  ts : Nat
  originalName : String
  size : Nat
deriving DecidableEq, Repr

/-- `POST /api/upload` (src/server.js lines 87-91) behind `authRequired`.
Modelled from the spec: the multipart middleware (multer) is external to
src/; per the spec it rejects with PayloadTooLarge when the stream exceeds
the fixed ceiling `limits.fileSize` without storing the file — the ceiling
constant itself is `fileSizeLimit` from src/server.js line 48. Otherwise it
writes the stream under the generated stored name and the handler answers
with the public path `'/uploads/' + path.basename(req.file.path)`. -/
def upload (s : ServerState) (sid : Nat) (file : Option UploadFile) :
    ServerState × Response :=
  match authRequired s sid with
  | some r => (s, r)
  | none =>
    match file with
    | none => (s, errResp 400 "no file")
    | some f =>
      if f.size > fileSizeLimit then (s, errResp 413 "PayloadTooLarge")
      else
        let stored := genStoredName f.ts f.originalName
        ({ users := s.users, sessions := s.sessions, files := stored :: s.files },
         ⟨200, true, none, some ("/uploads/" ++ basename ("/uploads/" ++ stored)),
          some f.originalName, none⟩)

/-- `GET /api/uploads` (src/server.js lines 94-100) behind `adminRequired`:
`fs.readdir` is external I/O, so its outcome is a parameter; `none` is a
read error (500 `read failed`), `some files` answers with
`{ file: '/uploads/' + f, name: f }` per directory entry. -/
def listUploads (s : ServerState) (sid : Nat) (dirResult : Option (List String)) :
    Response :=
  match adminRequired s sid with
  | some r => r
  | none =>
    match dirResult with
    | none => errResp 500 "read failed"
    | some fl =>
      ⟨200, true, none, none, none, some (fl.map (fun f => ("/uploads/" ++ f, f)))⟩

/-- `POST /api/promote` (src/server.js lines 106-111) behind `adminRequired`:
404 `no user` when the username is absent from `users`; otherwise set that
user's `role` to `'admin'` (the password is untouched). -/
def promote (s : ServerState) (sid : Nat) (username : String) :
    ServerState × Response :=
  match adminRequired s sid with
  | some r => (s, r)
  | none =>
    match s.users username with
    | none => (s, errResp 404 "no user")
    | some u =>
      ({ users := fun x => if x = username then some ⟨u.password, "admin"⟩ else s.users x,
         sessions := s.sessions,
         files := s.files }, okResp)

/-- One inbound request, carrying the opaque session identifier of the
caller's cookie and the request data. -/
inductive Request where
  | signup (sid : Nat) (username password : String)
  | login (sid : Nat) (username password : String)
  | logout (sid : Nat)
  | upload (sid : Nat) (file : Option UploadFile)
  | listUploads (sid : Nat) (dirResult : Option (List String))
  | promote (sid : Nat) (username : String)

/-- The router: dispatch one request against the current state. -/
def handle (s : ServerState) : Request → ServerState × Response
  | .signup sid u p => signup s sid u p
  | .login sid u p => login s sid u p
  | .logout sid => logout s sid
  | .upload sid f => upload s sid f
  | .listUploads sid d => (s, listUploads s sid d)
  | .promote sid u => promote s sid u

/-- States reachable from the seeded startup state by handling requests. -/
inductive Reachable : ServerState → Prop
  | init : Reachable initState
  | step {s : ServerState} (r : Request) : Reachable s → Reachable (handle s r).1

/-- Every live session binding refers to a username present in `users`. -/
def sessionsValid (s : ServerState) : Prop :=
  ∀ sid u, s.sessions sid = some u → s.users u.username ≠ none

/-- A concrete state used to instantiate theorems: after `alice` signed up
(session 1 holds `{alice, user}`). -/
def aliceState : ServerState := (signup initState 1 "alice" "pw1").1

/-- A concrete upload whose stream arrives twice within one millisecond:
the seeded admin logs in and uploads `clip.mp4` at `Date.now() =
1700000000000`. -/
def collide1 : ServerState × Response :=
  handle (login initState 0 "admin" "adminpass").1
    (.upload 0 (some ⟨1700000000000, "clip.mp4", 100⟩))

/-- The same upload handled again in the same millisecond. -/
def collide2 : ServerState × Response :=
  handle collide1.1 (.upload 0 (some ⟨1700000000000, "clip.mp4", 100⟩))

/-- `aliceState` after the seeded administrator also logged in
(session 0 holds `{admin, admin}`). -/
def adminSessState : ServerState := (login aliceState 0 "admin" "adminpass").1

/-- C1: `POST /api/login` answers 401 `invalid` without touching the state
whenever the username is absent or the stored password differs from the
supplied one; otherwise it answers `{ok: true}` and binds the session to the
username with the stored role, leaving users and files unchanged. -/
theorem login_matches_stored_credentials (s : ServerState) (sid : Nat)
    (username password : String) :
    ((∀ u, s.users username = some u → u.password ≠ password) →
      login s sid username password = (s, errResp 401 "invalid")) ∧
    (∀ u, s.users username = some u → u.password = password →
      (login s sid username password).2 = okResp ∧
      (login s sid username password).1.users = s.users ∧
      (login s sid username password).1.files = s.files ∧
      (login s sid username password).1.sessions sid = some ⟨username, u.role⟩) := by
  constructor
  · intro hbad
    cases hu : s.users username with
    | none => simp [login, hu]
    | some u => simp [login, hu, hbad u hu]
  · intro u hu hpw
    simp [login, hu, hpw]

/-- Witness for C1 at the seeded admin account: wrong password is 401,
the right password yields an ok response and an admin-role session. -/
theorem login_matches_stored_credentials_witness :
    login initState 0 "admin" "wrong" = (initState, errResp 401 "invalid") ∧
    (login initState 0 "admin" "adminpass").2 = okResp ∧
    (login initState 0 "admin" "adminpass").1.sessions 0 =
      some ⟨"admin", "admin"⟩ := by
  refine ⟨?_, ?_, ?_⟩
  · refine (login_matches_stored_credentials initState 0 "admin" "wrong").1 ?_
    intro u hu
    rw [show initState.users "admin" = some ⟨"adminpass", "admin"⟩ by decide] at hu
    injection hu with h
    subst h
    decide
  · exact ((login_matches_stored_credentials initState 0 "admin" "adminpass").2
      ⟨"adminpass", "admin"⟩ (by decide) rfl).1
  · exact ((login_matches_stored_credentials initState 0 "admin" "adminpass").2
      ⟨"adminpass", "admin"⟩ (by decide) rfl).2.2.2

/-- C3: the `adminRequired` gate passes exactly when the session holds a
user with role `"admin"`; in every other case (non-admin session or no
session) it produces the 403 `forbidden` response — never a 401 — and both
admin-only operations (list uploads, promote) answer with exactly that
response and leave the state alone. -/
theorem adminRequired_admin_iff (s : ServerState) (sid : Nat) :
    (adminRequired s sid = none ↔
      ∃ u, s.sessions sid = some u ∧ u.role = "admin") ∧
    (∀ r, adminRequired s sid = some r →
      r = errResp 403 "forbidden" ∧ r.status = 403 ∧ r.status ≠ 401 ∧
      (∀ d, listUploads s sid d = r) ∧
      (∀ un, promote s sid un = (s, r))) := by
  cases hu : s.sessions sid with
  | none =>
    refine ⟨by simp [adminRequired, hu], ?_⟩
    intro r hr
    rw [show adminRequired s sid = some (errResp 403 "forbidden") by
      simp [adminRequired, hu]] at hr
    injection hr with h
    subst h
    refine ⟨rfl, rfl, by decide, ?_, ?_⟩
    · intro d
      simp [listUploads, adminRequired, hu]
    · intro un
      simp [promote, adminRequired, hu]
  | some u =>
    by_cases hrole : u.role = "admin"
    · refine ⟨by simp [adminRequired, hu, hrole], ?_⟩
      intro r hr
      rw [show adminRequired s sid = none by simp [adminRequired, hu, hrole]] at hr
      cases hr
    · refine ⟨?_, ?_⟩
      · simp only [adminRequired, hu, if_neg hrole]
        constructor
        · intro h; cases h
        · rintro ⟨v, hv, hvrole⟩
          injection hv with h
          subst h
          exact absurd hvrole hrole
      · intro r hr
        rw [show adminRequired s sid = some (errResp 403 "forbidden") by
          simp [adminRequired, hu, hrole]] at hr
        injection hr with h
        subst h
        refine ⟨rfl, rfl, by decide, ?_, ?_⟩
        · intro d
          simp [listUploads, adminRequired, hu, hrole]
        · intro un
          simp [promote, adminRequired, hu, hrole]

/-- Witness for C3: alice's fresh session gets exactly the 403 `forbidden`
response from both admin-only operations, and the seeded admin's session
passes the gate. -/
theorem adminRequired_admin_iff_witness :
    (errResp 403 "forbidden" = errResp 403 "forbidden" ∧
      (errResp 403 "forbidden").status = 403 ∧
      (errResp 403 "forbidden").status ≠ 401 ∧
      (∀ d, listUploads aliceState 1 d = errResp 403 "forbidden") ∧
      (∀ un, promote aliceState 1 un = (aliceState, errResp 403 "forbidden"))) ∧
    adminRequired adminSessState 0 = none := by
  constructor
  · exact (adminRequired_admin_iff aliceState 1).2 (errResp 403 "forbidden") (by decide)
  · exact (adminRequired_admin_iff adminSessState 0).1.mpr
      ⟨⟨"admin", "admin"⟩, by decide, rfl⟩

/-- C9: `POST /api/logout` always answers 200 `{ok: true}`, removes the
session binding, is idempotent (a second logout yields the same state and
the same response), and with no active session it leaves the session store
as it was. -/
theorem logout_unconditional_idempotent (s : ServerState) (sid : Nat) :
    (logout s sid).2 = okResp ∧
    (logout s sid).1.sessions sid = none ∧
    logout (logout s sid).1 sid = logout s sid ∧
    (s.sessions sid = none → (logout s sid).1.sessions = s.sessions) := by
  have hfun : (fun i => if i = sid then none
        else if i = sid then none else s.sessions i) =
      (fun i => if i = sid then (none : Option SessionRec) else s.sessions i) := by
    funext i
    by_cases hi : i = sid <;> simp [hi]
  refine ⟨rfl, by simp [logout], ?_, ?_⟩
  · simp only [logout]
    rw [hfun]
  · intro h
    funext i
    by_cases hi : i = sid <;> simp [logout, hi, h.symm]

/-- Witness for C9 at the startup state (no session at all): logout still
answers ok and the session store is unchanged. -/
theorem logout_unconditional_idempotent_witness :
    (logout initState 0).2 = okResp ∧
    (logout initState 0).1.sessions = initState.sessions :=
  ⟨(logout_unconditional_idempotent initState 0).1,
   (logout_unconditional_idempotent initState 0).2.2.2 rfl⟩

/-- C2: `POST /api/signup` answers 400 `missing` when either field is the
empty string, 409 `exists` when the username is already in the store
(the seeded `admin` account included), and otherwise creates the user with
role `"user"`, binds the caller's session, and makes any further signup
with the same username (and a non-empty password) answer 409 `exists`. -/
theorem signup_validates_and_conflicts (s : ServerState) (sid sid2 : Nat)
    (username password p2 : String) :
    (username = "" ∨ password = "" →
      signup s sid username password = (s, errResp 400 "missing")) ∧
    (username ≠ "" → password ≠ "" → ∀ u, s.users username = some u →
      signup s sid username password = (s, errResp 409 "exists")) ∧
    (username ≠ "" → password ≠ "" → s.users username = none →
      (signup s sid username password).2 = okResp ∧
      (signup s sid username password).1.users username = some ⟨password, "user"⟩ ∧
      (signup s sid username password).1.sessions sid = some ⟨username, "user"⟩ ∧
      (p2 ≠ "" →
        (signup (signup s sid username password).1 sid2 username p2).2 =
          errResp 409 "exists")) := by
  refine ⟨?_, ?_, ?_⟩
  · intro h
    simp [signup, h]
  · intro hn hp u hu
    simp [signup, hn, hp, hu]
  · intro hn hp hu
    refine ⟨by simp [signup, hn, hp, hu], by simp [signup, hn, hp, hu],
      by simp [signup, hn, hp, hu], ?_⟩
    intro hp2
    set s' := (signup s sid username password).1 with hs'
    have husers : s'.users username = some ⟨password, "user"⟩ := by
      rw [hs']
      simp [signup, hn, hp, hu]
    simp [signup, hn, hp2, husers]

/-- Witness for C2: missing field, conflict with the seeded admin, fresh
signup for alice, and the duplicate signup conflict, all at concrete
inputs. -/
theorem signup_validates_and_conflicts_witness :
    signup initState 1 "" "pw" = (initState, errResp 400 "missing") ∧
    signup initState 1 "admin" "pw" = (initState, errResp 409 "exists") ∧
    (signup initState 1 "alice" "pw1").2 = okResp ∧
    (signup initState 1 "alice" "pw1").1.users "alice" = some ⟨"pw1", "user"⟩ ∧
    (signup initState 1 "alice" "pw1").1.sessions 1 = some ⟨"alice", "user"⟩ ∧
    (signup (signup initState 1 "alice" "pw1").1 2 "alice" "pw2").2 =
      errResp 409 "exists" := by
  have h := signup_validates_and_conflicts initState 1 2 "alice" "pw1" "pw2"
  have hok := h.2.2 (by decide) (by decide) (by decide)
  refine ⟨?_, ?_, hok.1, hok.2.1, hok.2.2.1, hok.2.2.2 (by decide)⟩
  · exact (signup_validates_and_conflicts initState 1 2 "" "pw" "x").1 (Or.inl rfl)
  · exact (signup_validates_and_conflicts initState 1 2 "admin" "pw" "x").2.1
      (by decide) (by decide) ⟨"adminpass", "admin"⟩ (by decide)

/-- C4: with an administrator session, `POST /api/promote` answers 404
`no user` without touching the state for an unknown username, and for a
known one answers ok and sets exactly that user's role to `"admin"`, so
that a subsequent login with the user's stored password creates a session
with role `"admin"`. -/
theorem promote_sets_admin (s : ServerState) (sid sid2 : Nat) (target : String)
    (hadmin : adminRequired s sid = none) :
    (s.users target = none →
      promote s sid target = (s, errResp 404 "no user")) ∧
    (∀ u, s.users target = some u →
      (promote s sid target).2 = okResp ∧
      (promote s sid target).1.users target = some ⟨u.password, "admin"⟩ ∧
      (login (promote s sid target).1 sid2 target u.password).2 = okResp ∧
      (login (promote s sid target).1 sid2 target u.password).1.sessions sid2 =
        some ⟨target, "admin"⟩) := by
  refine ⟨?_, ?_⟩
  · intro hu
    simp [promote, hadmin, hu]
  · intro u hu
    have hafter : (promote s sid target).1.users target =
        some ⟨u.password, "admin"⟩ := by simp [promote, hadmin, hu]
    refine ⟨by simp [promote, hadmin, hu], hafter, ?_, ?_⟩
    · simp [login, hafter]
    · simp [login, hafter]

/-- Witness for C4: the seeded admin session promotes; the unknown user
`bob` yields 404, and promoting `alice` then re-logging-in as alice gives
an admin-role session. -/
theorem promote_sets_admin_witness :
    promote adminSessState 0 "bob" = (adminSessState, errResp 404 "no user") ∧
    (promote adminSessState 0 "alice").2 = okResp ∧
    (promote adminSessState 0 "alice").1.users "alice" = some ⟨"pw1", "admin"⟩ ∧
    (login (promote adminSessState 0 "alice").1 5 "alice" "pw1").1.sessions 5 =
      some ⟨"alice", "admin"⟩ := by
  have h := promote_sets_admin adminSessState 0 5 "alice" (by decide)
  have hk := h.2 ⟨"pw1", "user"⟩ (by decide)
  refine ⟨?_, hk.1, hk.2.1, hk.2.2.2⟩
  exact (promote_sets_admin adminSessState 0 5 "bob" (by decide)).1 (by decide)

/-- C10: a successful promote changes only the target's role in the user
store: the session store and the files are untouched, the target keeps its
password, every other username maps as before, and any existing non-admin
session — the promoted user's own included — still gets 403 `forbidden`
from the gate until it re-authenticates. -/
theorem promote_frame (s : ServerState) (sid : Nat) (target : String)
    (hadmin : adminRequired s sid = none) (u : UserRec)
    (hu : s.users target = some u) :
    (promote s sid target).1.sessions = s.sessions ∧
    (promote s sid target).1.files = s.files ∧
    (promote s sid target).1.users target = some ⟨u.password, "admin"⟩ ∧
    (∀ x, x ≠ target → (promote s sid target).1.users x = s.users x) ∧
    (∀ sid2 v, s.sessions sid2 = some v → v.role ≠ "admin" →
      adminRequired (promote s sid target).1 sid2 =
        some (errResp 403 "forbidden")) := by
  have hsess : (promote s sid target).1.sessions = s.sessions := by
    simp [promote, hadmin, hu]
  refine ⟨hsess, by simp [promote, hadmin, hu], by simp [promote, hadmin, hu],
    ?_, ?_⟩
  · intro x hx
    simp [promote, hadmin, hu, hx]
  · intro sid2 v hv hvrole
    rw [adminRequired, hsess, hv]
    simp [hvrole]

/-- Witness for C10: alice's session-1 role snapshot survives her
promotion, and the gate still answers 403 for session 1. -/
theorem promote_frame_witness :
    (promote adminSessState 0 "alice").1.sessions = adminSessState.sessions ∧
    (promote adminSessState 0 "alice").1.users "admin" =
      adminSessState.users "admin" ∧
    adminRequired (promote adminSessState 0 "alice").1 1 =
      some (errResp 403 "forbidden") := by
  have h := promote_frame adminSessState 0 "alice" (by decide)
    ⟨"pw1", "user"⟩ (by decide)
  exact ⟨h.1, h.2.2.2.1 "admin" (by decide), h.2.2.2.2 1 ⟨"alice", "user"⟩
    (by decide) (by decide)⟩

/-- Handling any request can only add users, never remove one. -/
theorem handle_users_mono (s : ServerState) (r : Request) (x : String)
    (hx : s.users x ≠ none) : (handle s r).1.users x ≠ none := by
  cases r with
  | signup sid u p =>
    by_cases h0 : u = "" ∨ p = ""
    · simpa [handle, signup, h0] using hx
    · cases hu : s.users u with
      | some w => simpa [handle, signup, h0, hu] using hx
      | none =>
        simp only [handle, signup, h0, hu, if_false]
        by_cases hxu : x = u <;> simp [hxu, hx]
  | login sid u p =>
    cases hu : s.users u with
    | none => simpa [handle, login, hu] using hx
    | some w =>
      by_cases hp : w.password ≠ p <;> simpa [handle, login, hu, hp] using hx
  | logout sid => simpa [handle, logout] using hx
  | upload sid f =>
    cases ha : authRequired s sid with
    | some r' => simpa [handle, upload, ha] using hx
    | none =>
      cases f with
      | none => simpa [handle, upload, ha] using hx
      | some f =>
        by_cases hsz : f.size > fileSizeLimit <;>
          simpa [handle, upload, ha, hsz] using hx
  | listUploads sid d => simpa [handle] using hx
  | promote sid u =>
    cases ha : adminRequired s sid with
    | some r' => simpa [handle, promote, ha] using hx
    | none =>
      cases hu : s.users u with
      | none => simpa [handle, promote, ha, hu] using hx
      | some w =>
        simp only [handle, promote, ha, hu]
        by_cases hxu : x = u <;> simp [hxu, hx]

/-- C5: in every reachable state, every live session binding names a user
present in the store — sessions are created only by signup (right after the
user is inserted) and by login (only when the user exists), and users are
never deleted. -/
theorem reachable_sessions_reference_users (s : ServerState)
    (h : Reachable s) : sessionsValid s := by
  induction h with
  | init =>
    intro sid u hu
    exact absurd hu (by simp [initState])
  | step r _ ih =>
    rename_i t _
    intro sid' v hv
    cases r with
    | signup sid u p =>
      by_cases h0 : u = "" ∨ p = ""
      · rw [show (handle t (.signup sid u p)).1 = t by simp [handle, signup, h0]] at hv ⊢
        exact ih sid' v hv
      · cases hu : t.users u with
        | some w =>
          rw [show (handle t (.signup sid u p)).1 = t by simp [handle, signup, h0, hu]] at hv ⊢
          exact ih sid' v hv
        | none =>
          simp only [handle, signup, h0, hu, if_false] at hv ⊢
          by_cases hsid : sid' = sid
          · rw [if_pos hsid] at hv
            injection hv with hveq
            subst hveq
            simp
          · rw [if_neg hsid] at hv
            have := ih sid' v hv
            by_cases hvu : v.username = u <;> simp [hvu, this]
    | login sid u p =>
      cases hu : t.users u with
      | none =>
        rw [show (handle t (.login sid u p)).1 = t by simp [handle, login, hu]] at hv ⊢
        exact ih sid' v hv
      | some w =>
        by_cases hp : w.password ≠ p
        · rw [show (handle t (.login sid u p)).1 = t by simp [handle, login, hu, hp]] at hv ⊢
          exact ih sid' v hv
        · simp only [handle, login, hu, hp, if_false, ite_false] at hv ⊢
          by_cases hsid : sid' = sid
          · rw [if_pos hsid] at hv
            injection hv with hveq
            subst hveq
            simp [hu]
          · rw [if_neg hsid] at hv
            exact ih sid' v hv
    | logout sid =>
      simp only [handle, logout] at hv ⊢
      by_cases hsid : sid' = sid
      · rw [if_pos hsid] at hv
        cases hv
      · rw [if_neg hsid] at hv
        exact ih sid' v hv
    | upload sid f =>
      have hsame : (handle t (.upload sid f)).1.sessions = t.sessions ∧
          (handle t (.upload sid f)).1.users = t.users := by
        cases ha : authRequired t sid with
        | some r' => simp [handle, upload, ha]
        | none =>
          cases f with
          | none => simp [handle, upload, ha]
          | some f =>
            by_cases hsz : f.size > fileSizeLimit <;> simp [handle, upload, ha, hsz]
      rw [hsame.1] at hv
      rw [hsame.2]
      exact ih sid' v hv
    | listUploads sid d =>
      simp only [handle] at hv ⊢
      exact ih sid' v hv
    | promote sid u =>
      have hsess : (handle t (.promote sid u)).1.sessions = t.sessions := by
        cases ha : adminRequired t sid with
        | some r' => simp [handle, promote, ha]
        | none =>
          cases hu : t.users u with
          | none => simp [handle, promote, ha, hu]
          | some w => simp [handle, promote, ha, hu]
      rw [hsess] at hv
      exact handle_users_mono t (.promote sid u) v.username (ih sid' v hv)

/-- Witness for C5 at a concrete reachable state: after alice signs up,
her session's username is backed by a user record. -/
theorem reachable_sessions_reference_users_witness :
    aliceState.users
        (Option.getD (Option.map SessionRec.username (aliceState.sessions 1)) "") ≠
      none := by
  have hreach : Reachable aliceState :=
    Reachable.step (.signup 1 "alice" "pw1") Reachable.init
  have h := reachable_sessions_reference_users aliceState hreach 1
    ⟨"alice", "user"⟩ (by decide)
  simpa using h

theorem natCharsAux_zero (fuel : Nat) : natCharsAux fuel 0 = [] := by
  cases fuel <;> rfl

theorem natCharsAux_eq_digits :
    ∀ fuel n : Nat, n ≤ fuel →
      natCharsAux fuel n = ((Nat.digits 10 n).map digitChar).reverse := by
  intro fuel
  induction fuel with
  | zero =>
    intro n hn
    obtain rfl := Nat.le_zero.mp hn
    simp [natCharsAux]
  | succ fuel ih =>
    intro n hn
    cases n with
    | zero => simp [natCharsAux]
    | succ m =>
      have hdiv : (m + 1) / 10 < m + 1 := Nat.div_lt_self (Nat.succ_pos m) (by norm_num)
      rw [show natCharsAux (fuel + 1) (m + 1) =
          natCharsAux fuel ((m + 1) / 10) ++ [digitChar ((m + 1) % 10)] from rfl]
      rw [Nat.digits_def' (by norm_num : (1 : Nat) < 10) (Nat.succ_pos m)]
      rw [List.map_cons, List.reverse_cons]
      rw [ih ((m + 1) / 10) (by omega)]

theorem natChars_eq (n : Nat) :
    natChars n = if n = 0 then ['0']
      else ((Nat.digits 10 n).map digitChar).reverse := by
  by_cases h : n = 0 <;> simp [natChars, h, natCharsAux_eq_digits n n le_rfl]

theorem digitChar_ne_dash : ∀ d, d < 10 → digitChar d ≠ '-' := by decide

theorem digitChar_injOn :
    ∀ d1, d1 < 10 → ∀ d2, d2 < 10 → digitChar d1 = digitChar d2 → d1 = d2 := by
  decide

theorem dash_not_mem_natChars (n : Nat) : '-' ∉ natChars n := by
  rw [natChars_eq]
  split
  · decide
  · intro hmem
    rw [List.mem_reverse] at hmem
    obtain ⟨d, hd, hdc⟩ := List.mem_map.mp hmem
    exact digitChar_ne_dash d (Nat.digits_lt_base (by norm_num) hd) hdc

theorem map_digitChar_inj :
    ∀ l1 l2 : List Nat, (∀ d ∈ l1, d < 10) → (∀ d ∈ l2, d < 10) →
      l1.map digitChar = l2.map digitChar → l1 = l2 := by
  intro l1
  induction l1 with
  | nil =>
    intro l2 _ _ h
    cases l2 with
    | nil => rfl
    | cons b t2 => simp at h
  | cons a t ih =>
    intro l2 h1 h2 h
    cases l2 with
    | nil => simp at h
    | cons b t2 =>
      simp only [List.map_cons, List.cons.injEq] at h
      have ha : a = b :=
        digitChar_injOn a (h1 a (by simp)) b (h2 b (by simp)) h.1
      rw [ha, ih t2 (fun d hd => h1 d (by simp [hd]))
        (fun d hd => h2 d (by simp [hd])) h.2]

theorem digits_rev_ne_zero_char {n : Nat} (hn : n ≠ 0)
    (h : ((Nat.digits 10 n).map digitChar).reverse = ['0']) : False := by
  have h' : (Nat.digits 10 n).map digitChar = ['0'] := by
    have := congrArg List.reverse h
    simpa using this
  cases hL : Nat.digits 10 n with
  | nil => rw [hL] at h'; simp at h'
  | cons a t =>
    rw [hL] at h'
    cases t with
    | cons c tt => simp at h'
    | nil =>
      simp only [List.map_cons, List.map_nil, List.cons.injEq] at h'
      have ha : a < 10 := Nat.digits_lt_base (by norm_num) (by rw [hL]; simp)
      have ha0 : a = 0 :=
        digitChar_injOn a ha 0 (by norm_num) (by rw [h'.1]; rfl)
      have hofdig := Nat.ofDigits_digits 10 n
      rw [hL, ha0] at hofdig
      rw [show Nat.ofDigits 10 [0] = 0 by simp [Nat.ofDigits]] at hofdig
      exact hn hofdig.symm

theorem natChars_inj {m n : Nat} (h : natChars m = natChars n) : m = n := by
  rw [natChars_eq, natChars_eq] at h
  by_cases hm : m = 0 <;> by_cases hn : n = 0
  · rw [hm, hn]
  · rw [if_pos hm, if_neg hn] at h
    exact absurd h.symm (fun hc => digits_rev_ne_zero_char hn hc)
  · rw [if_neg hm, if_pos hn] at h
    exact absurd h (fun hc => digits_rev_ne_zero_char hm hc)
  · rw [if_neg hm, if_neg hn] at h
    have hmap := List.reverse_injective h
    have hdig := map_digitChar_inj _ _
      (fun d hd => Nat.digits_lt_base (by norm_num) hd)
      (fun d hd => Nat.digits_lt_base (by norm_num) hd) hmap
    exact Nat.digits.injective 10 hdig

theorem append_dash_inj :
    ∀ a1 a2 : List Char, ∀ {b1 b2 : List Char}, '-' ∉ a1 → '-' ∉ a2 →
      a1 ++ '-' :: b1 = a2 ++ '-' :: b2 → a1 = a2 ∧ b1 = b2 := by
  intro a1
  induction a1 with
  | nil =>
    intro a2 b1 b2 _ h2 h
    cases a2 with
    | nil => simpa using h
    | cons c t =>
      simp only [List.nil_append, List.cons_append, List.cons.injEq] at h
      exfalso
      apply h2
      rw [← h.1]
      exact List.mem_cons_self _ _
  | cons c t ih =>
    intro a2 b1 b2 h1 h2 h
    cases a2 with
    | nil =>
      simp only [List.cons_append, List.nil_append, List.cons.injEq] at h
      exfalso
      apply h1
      rw [h.1]
      exact List.mem_cons_self _ _
    | cons c2 t2 =>
      simp only [List.cons_append, List.cons.injEq] at h
      obtain ⟨hc, ht⟩ := h
      have hrec := ih t2 (fun hm => h1 (List.mem_cons_of_mem _ hm))
        (fun hm => h2 (List.mem_cons_of_mem _ hm)) ht
      exact ⟨by rw [hc, hrec.1], hrec.2⟩

theorem genStoredName_data (ts : Nat) (nm : String) :
    (genStoredName ts nm).data =
      natChars ts ++ '-' :: collapseChars false nm.data := by
  simp [genStoredName, collapseWs, String.data_append]

theorem takeWhile_append_all {p : Char → Bool} :
    ∀ l1 l2 : List Char, (∀ c ∈ l1, p c) →
      (l1 ++ l2).takeWhile p = l1 ++ l2.takeWhile p := by
  intro l1
  induction l1 with
  | nil => intro l2 _; simp
  | cons c t ih =>
    intro l2 h
    have hc := h c (by simp)
    simp [List.takeWhile_cons, hc, ih l2 (fun x hx => h x (by simp [hx]))]

theorem basename_uploads (s : String) (h : '/' ∉ s.data) :
    basename ("/uploads/" ++ s) = s := by
  have hall : ∀ c ∈ s.data.reverse, (c != '/') = true := by
    intro c hc
    rw [List.mem_reverse] at hc
    simp only [bne_iff_ne, ne_eq]
    rintro rfl
    exact h hc
  have hmain : ((("/uploads/" ++ s).data.reverse.takeWhile
      (fun c => c != '/')).reverse) = s.data := by
    rw [String.data_append, List.reverse_append]
    rw [takeWhile_append_all _ _ hall]
    rw [show (("/uploads/".data.reverse).takeWhile (fun c => c != '/')) = []
      from by decide]
    simp
  unfold basename
  cases s with
  | mk d => exact congrArg String.mk hmain

theorem collapse_true_run :
    ∀ ws rest : List Char, (∀ c ∈ ws, isJsWs c) →
      (∀ c, rest.head? = some c → isJsWs c = false) →
      collapseChars true (ws ++ rest) = collapseChars false rest := by
  intro ws
  induction ws with
  | nil =>
    intro rest _ hrest
    cases rest with
    | nil => rfl
    | cons r rs =>
      have hr : isJsWs r = false := hrest r rfl
      simp [collapseChars, hr]
  | cons w t ih =>
    intro rest hws hrest
    have hw : isJsWs w := hws w (by simp)
    simp only [List.cons_append, collapseChars, hw, if_true, if_pos]
    exact ih rest (fun c hc => hws c (by simp [hc])) hrest

/-- C6: a successful authenticated upload (a file present, within the size
ceiling, whose generated name holds no path separator) stores exactly the
name `Date.now() + '-' + originalname.replace(/\s+/g, '_')` and answers ok
with the public path `'/uploads/' + storedName`; moreover the replacement
turns each maximal whitespace run into a single underscore (a non-white
head character is kept, a non-empty whitespace run followed by a non-white
or empty remainder becomes one `'_'`). -/
theorem upload_stored_name_and_path (s : ServerState) (sid : Nat)
    (f : UploadFile) (hauth : authRequired s sid = none)
    (hsize : f.size ≤ fileSizeLimit)
    (hslash : '/' ∉ (genStoredName f.ts f.originalName).data) :
    ((upload s sid (some f)).2.status = 200 ∧
      (upload s sid (some f)).2.ok = true) ∧
    (upload s sid (some f)).1.files =
      genStoredName f.ts f.originalName :: s.files ∧
    (upload s sid (some f)).2.file =
      some ("/uploads/" ++ genStoredName f.ts f.originalName) ∧
    genStoredName f.ts f.originalName =
      (⟨natChars f.ts⟩ : String) ++ "-" ++
        (⟨collapseChars false f.originalName.data⟩ : String) ∧
    (∀ (c : Char) (rest : List Char), isJsWs c = false →
      collapseChars false (c :: rest) = c :: collapseChars false rest) ∧
    (∀ ws rest : List Char, ws ≠ [] → (∀ c ∈ ws, isJsWs c) →
      (∀ c, rest.head? = some c → isJsWs c = false) →
      collapseChars false (ws ++ rest) = '_' :: collapseChars false rest) := by
  have hnot : ¬ f.size > fileSizeLimit := Nat.not_lt.mpr hsize
  refine ⟨?_, ?_, ?_, rfl, ?_, ?_⟩
  · constructor <;> simp [upload, hauth, hnot]
  · simp [upload, hauth, hnot]
  · simp only [upload, hauth, hnot, if_neg, if_false]
    rw [basename_uploads _ hslash]
  · intro c rest hc
    simp [collapseChars, hc]
  · intro ws rest hne hws hrest
    cases ws with
    | nil => exact absurd rfl hne
    | cons w t =>
      have hw : isJsWs w := hws w (by simp)
      have hrun := collapse_true_run t rest (fun c hc => hws c (by simp [hc])) hrest
      rw [List.cons_append]
      rw [show collapseChars false (w :: (t ++ rest)) =
        '_' :: collapseChars true (t ++ rest) from by simp [collapseChars, hw]]
      rw [hrun]

/-- Witness for C6: the admin session uploads `my clip.mp4` at a fixed
timestamp; the stored name and returned path are as claimed. -/
theorem upload_stored_name_and_path_witness :
    (upload adminSessState 0 (some ⟨1700000000000, "my clip.mp4", 12345⟩)).2.file =
      some "/uploads/1700000000000-my_clip.mp4" ∧
    (upload adminSessState 0 (some ⟨1700000000000, "my clip.mp4", 12345⟩)).1.files =
      ["1700000000000-my_clip.mp4"] := by
  have h := upload_stored_name_and_path adminSessState 0
    ⟨1700000000000, "my clip.mp4", 12345⟩ (by decide) (by decide) (by decide)
  constructor
  · rw [h.2.2.1]; decide
  · rw [h.2.1]; decide

/-- C7 counterexample: two distinct successful uploads — same millisecond,
same original name — store the very same name: after the two uploads the
files list holds a duplicate entry. -/
theorem genStoredName_collision :
    collide1.2.status = 200 ∧ collide2.2.status = 200 ∧
    collide2.1.files = [genStoredName 1700000000000 "clip.mp4",
      genStoredName 1700000000000 "clip.mp4"] ∧
    ¬ collide2.1.files.Nodup := by
  refine ⟨by decide, by decide, by decide, by decide⟩

/-- C7 amended: stored names are unique across uploads whose `Date.now()`
values differ (the decimal timestamp is recoverable as the digit prefix
before the first `'-'`); uploads that share a millisecond and a sanitized
original name collide. -/
theorem genStoredName_inj_of_ts_ne (ts1 ts2 : Nat) (n1 n2 : String)
    (h : ts1 ≠ ts2) : genStoredName ts1 n1 ≠ genStoredName ts2 n2 := by
  intro heq
  have hd := congrArg String.data heq
  rw [genStoredName_data, genStoredName_data] at hd
  have hsplit := append_dash_inj (natChars ts1) (natChars ts2)
    (dash_not_mem_natChars ts1) (dash_not_mem_natChars ts2) hd
  exact h (natChars_inj hsplit.1)

/-- Witness for the amended C7 at two concrete timestamps. -/
theorem genStoredName_inj_of_ts_ne_witness :
    genStoredName 1700000000000 "clip.mp4" ≠
      genStoredName 1700000000001 "clip.mp4" :=
  genStoredName_inj_of_ts_ne 1700000000000 1700000000001 "clip.mp4" "clip.mp4"
    (by decide)

/-- C8: an authenticated upload whose stream exceeds the 2 GiB ceiling is
rejected with the PayloadTooLarge error response and nothing is stored; the
ceiling is exactly `2 * 1024 * 1024 * 1024` bytes. -/
theorem upload_payload_too_large (s : ServerState) (sid : Nat)
    (f : UploadFile) (hauth : authRequired s sid = none)
    (h : f.size > fileSizeLimit) :
    upload s sid (some f) = (s, errResp 413 "PayloadTooLarge") ∧
    (upload s sid (some f)).1.files = s.files ∧
    fileSizeLimit = 2 * 1024 * 1024 * 1024 := by
  have hup : upload s sid (some f) = (s, errResp 413 "PayloadTooLarge") := by
    simp [upload, hauth, h]
  exact ⟨hup, by rw [hup], rfl⟩

/-- Witness for C8: a 2 GiB + 1 byte upload by the admin session is
rejected and stores nothing. -/
theorem upload_payload_too_large_witness :
    upload adminSessState 0 (some ⟨7, "big.mp4", 2 * 1024 * 1024 * 1024 + 1⟩) =
      (adminSessState, errResp 413 "PayloadTooLarge") :=
  (upload_payload_too_large adminSessState 0
    ⟨7, "big.mp4", 2 * 1024 * 1024 * 1024 + 1⟩ (by decide) (by decide)).1

end Zahar
